import Mathlib

/-!
Verification of the pysdccc test execution orchestration engine.

This file gives a shallow embedding of the core of the pysdccc package
(src/pysdccc/_runner.py and src/pysdccc/_common.py) and proves or refutes
the behavioural properties stated in the specification.

Conventions of the embedding:
* Python dictionaries become association lists that keep insertion order,
  which matches the iteration order of a Python dict.
* Raising an exception becomes returning `Except.error`.
* The external child process is modelled by a `ProcSpec` record giving the
  wall clock time at which the child would exit on its own, the exit code
  of a natural exit, and the return code observed after the engine kills it.
-/

namespace Pysdccc

/-! ## Requirement catalogs and `check_requirements` (_runner.py lines 106-128) -/

/-- A per standard requirement map: requirement id to enabled flag, in
insertion order, mirroring a Python `dict[str, bool]`. -/
abbrev Requirements := List (String × Bool)

/-- A requirement catalog: standard name to requirement map, in insertion
order, mirroring a Python `dict[str, dict[str, bool]]`. -/
abbrev Catalog := List (String × Requirements)

/-- The list comprehension `[req for req, enabled in requirements.items() if enabled]`. -/
def enabledIds (reqs : Requirements) : List String :=
  (reqs.filter (fun p => p.2)).map (fun p => p.1)

/-- All requirement ids of a requirement map, enabled or not. -/
def ids (reqs : Requirements) : List String :=
  reqs.map (fun p => p.1)

/-- The keys of a catalog, mirroring Python `list(d)` on a dict. -/
def keys (c : Catalog) : List String :=
  c.map (fun p => p.1)

/-- The inner loop of `check_requirements`: `for req in provided_enabled:
if req not in available_enabled: raise KeyError(...)`. -/
def checkIds (standard : String) (available_enabled : List String) :
    List String → Except String Unit
  | [] => Except.ok ()
  | req :: rest =>
    if req ∈ available_enabled then checkIds standard available_enabled rest
    else Except.error ("Requirement id " ++ standard ++ "." ++ req ++ " not found")

/-- `check_requirements` from _runner.py lines 106-128: for each provided
standard, fail if the standard is not a key of `available`, else fail on the
first provided enabled id that is not among the enabled ids of that standard
in `available`. -/
def check_requirements : Catalog → Catalog → Except String Unit
  | [], _ => Except.ok ()
  | (standard, requirements) :: rest, available =>
    match available.lookup standard with
    | none => Except.error ("Unsupported standard " ++ standard)
    | some avail =>
      match checkIds standard (enabledIds avail) (enabledIds requirements) with
      | Except.ok _ => check_requirements rest available
      | Except.error e => Except.error e

/-- The enabled ids that `available` offers for a standard; `[]` when the
standard is not a key (the code never reads this default because it checks
key membership first). -/
def availEnabled (available : Catalog) (standard : String) : List String :=
  enabledIds ((available.lookup standard).getD [])

/-- Validity of a provided catalog against an available one, as the code
enforces it: every provided standard is a key of `available`, and every
provided enabled id is among the enabled ids `available` offers for that
standard. -/
def catalogValid (provided available : Catalog) : Prop :=
  ∀ p ∈ provided, p.1 ∈ keys available ∧
    ∀ r ∈ enabledIds p.2, r ∈ availEnabled available p.1

instance instDecCatalogValid (provided available : Catalog) :
    Decidable (catalogValid provided available) := by
  unfold catalogValid
  infer_instance

/-! ## Command builder `build_command` (_common.py lines 11-15) -/

/-- A Python value bound to a command line flag. The source accepts any
value; the claims concern booleans and strings, so the embedding covers
exactly those (`value is True` matches `bool true`; `value not in (True,
False)` matches `str`). -/
inductive PyValue where
  | bool (b : Bool)
  | str (s : String)
deriving DecidableEq

/-- The Python test `value is True`. -/
def isTrueV : PyValue → Bool
  | PyValue.bool true => true
  | _ => false

/-- The Python test `value not in (True, False)`: a string is never equal
to a boolean, a boolean always is. -/
def isNonBool : PyValue → Bool
  | PyValue.str _ => true
  | PyValue.bool _ => false

/-- Python `str(value)` for the values the embedding covers. -/
def strOf : PyValue → String
  | PyValue.str s => s
  | PyValue.bool true => "True"
  | PyValue.bool false => "False"

/-- Python `' '.join(parts)`. -/
def joinSpace (parts : List String) : String :=
  String.intercalate " " parts

/-- The chunk `--{arg} "{value}"` that a non boolean flag contributes. -/
def quoteArg (name : String) (v : PyValue) : String :=
  "--" ++ name ++ " \"" ++ strOf v ++ "\""

/-- `build_command` from _common.py lines 11-15: boolean-true flags become
`--name`, non boolean flags become `--name "value"`, boolean-false flags are
dropped, and positional arguments, the flag block and the valued block are
space joined with empty parts omitted. -/
def build_command (args : List String) (kwargs : List (String × PyValue)) : String :=
  let flags := joinSpace ((kwargs.filter (fun p => isTrueV p.2)).map (fun p => "--" ++ p.1))
  let kwargs_string :=
    joinSpace ((kwargs.filter (fun p => isNonBool p.2)).map (fun p => quoteArg p.1 p.2))
  joinSpace ((args ++ [flags, kwargs_string]).filter (fun part => part != ""))

/-- The tokens one flag contributes to the flag block: exactly `--name` for
a boolean-true binding, nothing otherwise. -/
def boolFlagToken (p : String × PyValue) : Option String :=
  match p.2 with
  | PyValue.bool true => some ("--" ++ p.1)
  | PyValue.bool false => none
  | PyValue.str _ => none

/-- The chunk one flag contributes to the valued block: exactly
`--name "value"` for a string binding, nothing for a boolean binding. -/
def valuedFlagChunk (p : String × PyValue) : Option String :=
  match p.2 with
  | PyValue.str _ => some (quoteArg p.1 p.2)
  | PyValue.bool _ => none

/-! ## Runner command preparation (_runner.py lines 277-287) -/

/-- A `pathlib.Path` value, abstracted to the two observations the runner
makes of it: whether it is absolute, and its string rendering. -/
structure PyPath where
  absolute : Bool
  toStr : String
deriving DecidableEq

/-- Python dict item assignment `d[k] = v`: replace the value of an existing
key in place (a Python dict keeps the insertion position of the key), else
append the new binding. -/
def dictSet (d : List (String × String)) (k v : String) : List (String × String) :=
  if d.any (fun p => p.1 == k) then
    d.map (fun p => if p.1 == k then (k, v) else p)
  else d ++ [(k, v)]

/-- The string `" ".join(f"--{arg} {value}" for arg, value in kwargs.items())`. -/
def renderArgs (d : List (String × String)) : String :=
  joinSpace (d.map (fun p => "--" ++ p.1 ++ " " ++ p.2))

/-- The kwargs dict after `_prepare_execution_command` performs its four
item assignments, in source order. -/
def finalKwargs (test_run_dir : String) (config requirements : PyPath)
    (kwargs : List (String × String)) : List (String × String) :=
  dictSet
    (dictSet
      (dictSet
        (dictSet kwargs "no_subdirectories" "true")
        "test_run_directory" test_run_dir)
      "config" config.toStr)
    "testconfig" requirements.toStr

/-- `_BaseRunner._prepare_execution_command` from _runner.py lines 277-287:
reject non absolute config or requirements paths, then inject the four
engine flags by dict assignment and render the flag string. Caller supplied
values are modelled as already rendered strings. -/
def prepare_execution_command (test_run_dir : String) (config requirements : PyPath)
    (kwargs : List (String × String)) : Except String String :=
  if !config.absolute then Except.error "Path to config file must be absolute"
  else if !requirements.absolute then Except.error "Path to requirements file must be absolute"
  else Except.ok (renderArgs (finalKwargs test_run_dir config requirements kwargs))

/-! ## Process execution engine (_runner.py lines 145-181 and 348-391) -/

/-- Abstraction of one external child process: the wall clock time at which
it would exit on its own, its exit code for a natural exit, and the return
code observed after the engine kills it (for example the negative signal
number). -/
structure ProcSpec where
  runtime : Nat
  exitCode : Int
  killedExitCode : Int
deriving DecidableEq

/-- The error kinds the specification names for a run; the embedding shows
which of them the code actually produces. -/
inductive RunError where
  | timeout
  | launchFailure
deriving DecidableEq

/-- `_run_sdccc` from _runner.py lines 145-181 (blocking variant): wait for
the process; without a timeout, or when the process exits in time, return
its exit code; when `proc.wait` raises `TimeoutExpired`, the handler calls
`proc.kill()` and the function falls through to `return proc.returncode`,
the return code of the killed process. No exception leaves the function. -/
def run_sdccc (p : ProcSpec) (timeout : Option Nat) : Except RunError Int :=
  match timeout with
  | none => Except.ok p.exitCode
  | some t =>
    if p.runtime ≤ t then Except.ok p.exitCode
    else Except.ok p.killedExitCode

/-- `SdcccRunnerAsync.run` waiting logic from _runner.py lines 381-391
(concurrent variant): `asyncio.wait_for` raises `TimeoutError`, the handler
catches it, kills the transport, awaits the close event and returns the
return code of the killed process; the cancellation is not re-raised. -/
def runAsyncEngine (p : ProcSpec) (timeout : Option Nat) : Except RunError Int :=
  match timeout with
  | none => Except.ok p.exitCode
  | some t =>
    if p.runtime ≤ t then Except.ok p.exitCode
    else Except.ok p.killedExitCode

/-! ## Runner facade `SdcccRunner.run` (_runner.py lines 293-315) -/

/-- The runner state relevant to one run: the test run directory path and
whether that directory is empty when `run` is called. The emptiness flag is
part of the model state so that theorems can quantify over it; the source
`run` never reads the directory contents. -/
structure RunnerState where
  testRunDir : String
  testRunDirEmpty : Bool
deriving DecidableEq

/-- Errors a `run` call can surface. -/
inductive RunnerError where
  | invalidPath (msg : String)
  | process (e : RunError)
deriving DecidableEq

/-- `SdcccRunner.run` from _runner.py lines 293-315: prepare the command
(which can only fail on non absolute paths), then spawn the executable via
`_run_sdccc`. The second component counts spawned processes, so that
"fails before any process is spawned" is observable. -/
def sdcccRunner_run (st : RunnerState) (config requirements : PyPath)
    (kwargs : List (String × String)) (p : ProcSpec) (timeout : Option Nat) :
    Except RunnerError Int × Nat :=
  match prepare_execution_command st.testRunDir config requirements kwargs with
  | Except.error e => (Except.error (RunnerError.invalidPath e), 0)
  | Except.ok _ =>
    match run_sdccc p timeout with
    | Except.ok code => (Except.ok code, 1)
    | Except.error e => (Except.error (RunnerError.process e), 1)

/-- Injection of an engine result into the runner result type. -/
def liftRun : Except RunError Int → Except RunnerError Int
  | Except.ok code => Except.ok code
  | Except.error e => Except.error (RunnerError.process e)

/-! ## Report parsing (_runner.py lines 184-196; `TestSuite.from_file` is in
module pysdccc._result_parser, which is not part of the sources) -/

/-- One parsed test case: identifier and human readable description (the
fields the report claims need). -/
structure TestCase where
  caseId : String
  description : String
deriving DecidableEq

/-- A parsed test suite: the ordered cases of one report file. -/
structure TestSuite where
  cases : List TestCase
deriving DecidableEq

/-- The state of one report file in the test run directory. -/
inductive FileState where
  | missing
  | wellFormed (suite : TestSuite)
  | malformed
deriving DecidableEq

/-- Report parsing errors. -/
inductive ReportError where
  | format
deriving DecidableEq

/-- Modelled from the spec: `TestSuite.from_file` lives in module
pysdccc._result_parser, which is not among the sources. Spec sections 4.3
and 7 state that a missing report file yields "no suite available" (`None`)
rather than an error, a well formed file yields the parsed suite, and a
malformed but present file raises `ReportFormatError`. -/
def testSuite_from_file : FileState → Except ReportError (Option TestSuite)
  | FileState.missing => Except.ok none
  | FileState.wellFormed s => Except.ok (some s)
  | FileState.malformed => Except.error ReportError.format

/-- `parse_results` from _runner.py lines 184-196: parse the direct report
file and the invariant report file independently and pair the results. -/
def parse_results (directFile invariantFile : FileState) :
    Except ReportError (Option TestSuite × Option TestSuite) :=
  match testSuite_from_file directFile, testSuite_from_file invariantFile with
  | Except.ok d, Except.ok i => Except.ok (d, i)
  | Except.error e, _ => Except.error e
  | _, Except.error e => Except.error e

/-- `SdcccRunner.run` with the contents of the test run directory made
explicit: the source `run` never reads the report files, so the two
`FileState` arguments do not occur in the body. Reading the reports is a
separate call (`get_result`, which delegates to `parse_results`). -/
def sdcccRunner_run_full (st : RunnerState) (config requirements : PyPath)
    (kwargs : List (String × String)) (p : ProcSpec) (timeout : Option Nat)
    (_directFile _invariantFile : FileState) : Except RunnerError Int × Nat :=
  sdcccRunner_run st config requirements kwargs p timeout

instance instDecEqExceptP {ε α : Type} [DecidableEq ε] [DecidableEq α] :
    DecidableEq (Except ε α) := fun a b =>
  match a, b with
  | Except.error x, Except.error y =>
    match decEq x y with
    | isTrue h => isTrue (congrArg Except.error h)
    | isFalse h => isFalse (fun hh => h (by injection hh))
  | Except.ok x, Except.ok y =>
    match decEq x y with
    | isTrue h => isTrue (congrArg Except.ok h)
    | isFalse h => isFalse (fun hh => h (by injection hh))
  | Except.error _, Except.ok _ => isFalse (fun hh => Except.noConfusion hh)
  | Except.ok _, Except.error _ => isFalse (fun hh => Except.noConfusion hh)

/-! ## Helper lemmas -/

theorem mem_enabledIds_iff (reqs : Requirements) (r : String) :
    r ∈ enabledIds reqs ↔ ∃ q ∈ reqs, q.1 = r ∧ q.2 = true := by
  simp only [enabledIds, List.mem_map, List.mem_filter]
  constructor
  · rintro ⟨q, ⟨hq, hq2⟩, hq1⟩
    exact ⟨q, hq, hq1, hq2⟩
  · rintro ⟨q, hq, hq1, hq2⟩
    exact ⟨q, ⟨hq, hq2⟩, hq1⟩

theorem lookup_some_mem_keys (c : Catalog) (s : String) (x : Requirements)
    (h : c.lookup s = some x) : s ∈ keys c := by
  induction c with
  | nil => simp [List.lookup] at h
  | cons p rest ih =>
    rw [List.lookup] at h
    by_cases hs : s = p.1
    · simp [keys, hs]
    · have hbeq : (s == p.1) = false := beq_eq_false_iff_ne.mpr hs
      rw [hbeq] at h
      simp only [keys, List.map_cons, List.mem_cons]
      exact Or.inr (ih h)

theorem mem_keys_lookup_isSome (c : Catalog) (s : String)
    (h : s ∈ keys c) : ∃ x, c.lookup s = some x := by
  induction c with
  | nil => simp [keys] at h
  | cons p rest ih =>
    by_cases hs : s = p.1
    · exact ⟨p.2, by rw [List.lookup, hs]; simp⟩
    · have hbeq : (s == p.1) = false := beq_eq_false_iff_ne.mpr hs
      simp only [keys, List.map_cons, List.mem_cons] at h
      rcases h with h | h
      · exact absurd h hs
      · obtain ⟨x, hx⟩ := ih h
        exact ⟨x, by rw [List.lookup, hbeq]; exact hx⟩

theorem checkIds_ok_iff (standard : String) (ae : List String) (l : List String) :
    checkIds standard ae l = Except.ok () ↔ ∀ r ∈ l, r ∈ ae := by
  induction l with
  | nil => simp [checkIds]
  | cons r t ih =>
    by_cases h : r ∈ ae
    · simp [checkIds, h, ih]
    · simp [checkIds, h]

/-- Complete characterization of `check_requirements`: it succeeds exactly on
catalogs valid in the sense of `catalogValid`. -/
theorem check_requirements_ok_iff (provided available : Catalog) :
    check_requirements provided available = Except.ok () ↔
      catalogValid provided available := by
  induction provided with
  | nil => simp [check_requirements, catalogValid]
  | cons p rest ih =>
    obtain ⟨s, reqs⟩ := p
    rw [catalogValid, List.forall_mem_cons]
    cases h : available.lookup s with
    | none =>
      have hk : s ∉ keys available := by
        intro hmem
        obtain ⟨x, hx⟩ := mem_keys_lookup_isSome available s hmem
        rw [h] at hx
        exact Option.noConfusion hx
      simp [check_requirements, h, hk]
    | some avail =>
      have hk : s ∈ keys available := lookup_some_mem_keys available s avail h
      have hae : availEnabled available s = enabledIds avail := by
        simp [availEnabled, h]
      cases hc : checkIds s (enabledIds avail) (enabledIds reqs) with
      | ok u =>
        cases u
        have hids : ∀ r ∈ enabledIds reqs, r ∈ enabledIds avail :=
          (checkIds_ok_iff s (enabledIds avail) (enabledIds reqs)).mp hc
        simp only [check_requirements, h, hc, ih]
        constructor
        · intro hrest
          exact ⟨⟨hk, by rw [hae]; exact hids⟩, hrest⟩
        · intro hall
          exact hall.2
      | error e =>
        have hids : ¬ ∀ r ∈ enabledIds reqs, r ∈ enabledIds avail := by
          intro hall
          have := (checkIds_ok_iff s (enabledIds avail) (enabledIds reqs)).mpr hall
          rw [hc] at this
          exact Except.noConfusion this
        simp only [check_requirements, h, hc]
        constructor
        · intro hbad
          exact absurd hbad (by intro hh; exact Except.noConfusion hh)
        · intro hall
          rw [hae] at hall
          exact absurd hall.1.2 hids

theorem filter_true_map_eq_filterMap (kwargs : List (String × PyValue)) :
    (kwargs.filter (fun p => isTrueV p.2)).map (fun p => "--" ++ p.1)
      = kwargs.filterMap boolFlagToken := by
  induction kwargs with
  | nil => rfl
  | cons p t ih =>
    obtain ⟨n, v⟩ := p
    cases v with
    | bool b =>
      cases b
      · exact ih
      · exact congrArg (List.cons ("--" ++ n)) ih
    | str s => exact ih

theorem filter_str_map_eq_filterMap (kwargs : List (String × PyValue)) :
    (kwargs.filter (fun p => isNonBool p.2)).map (fun p => quoteArg p.1 p.2)
      = kwargs.filterMap valuedFlagChunk := by
  induction kwargs with
  | nil => rfl
  | cons p t ih =>
    obtain ⟨n, v⟩ := p
    cases v with
    | bool b => cases b <;> exact ih
    | str s => exact congrArg (List.cons (quoteArg n (PyValue.str s))) ih

theorem filter_drop_false_true (kwargs : List (String × PyValue)) :
    (kwargs.filter (fun p => p.2 != PyValue.bool false)).filter (fun p => isTrueV p.2)
      = kwargs.filter (fun p => isTrueV p.2) := by
  induction kwargs with
  | nil => rfl
  | cons p t ih =>
    obtain ⟨n, v⟩ := p
    cases v with
    | bool b =>
      cases b
      · exact ih
      · exact congrArg (List.cons (n, PyValue.bool true)) ih
    | str s => exact ih

theorem filter_drop_false_str (kwargs : List (String × PyValue)) :
    (kwargs.filter (fun p => p.2 != PyValue.bool false)).filter (fun p => isNonBool p.2)
      = kwargs.filter (fun p => isNonBool p.2) := by
  induction kwargs with
  | nil => rfl
  | cons p t ih =>
    obtain ⟨n, v⟩ := p
    cases v with
    | bool b => cases b <;> exact ih
    | str s => exact congrArg (List.cons (n, PyValue.str s)) ih

theorem dictSet_mem_self (d : List (String × String)) (k v : String) :
    (k, v) ∈ dictSet d k v := by
  by_cases h : d.any (fun p => p.1 == k)
  · rw [dictSet, if_pos h]
    obtain ⟨q, hq, hqk⟩ := List.any_eq_true.mp h
    refine List.mem_map.mpr ⟨q, hq, ?_⟩
    rw [if_pos hqk]
  · rw [dictSet, if_neg h]
    exact List.mem_append_right d (List.mem_singleton_self _)

theorem dictSet_mem_of_ne (d : List (String × String)) (k v : String)
    (q : String × String) (hq : q ∈ d) (hne : q.1 ≠ k) : q ∈ dictSet d k v := by
  have hbeq : (q.1 == k) = false := beq_eq_false_iff_ne.mpr hne
  by_cases h : d.any (fun p => p.1 == k)
  · rw [dictSet, if_pos h]
    refine List.mem_map.mpr ⟨q, hq, ?_⟩
    rw [if_neg (by rw [hbeq]; exact Bool.false_ne_true)]
  · rw [dictSet, if_neg h]
    exact List.mem_append_left _ hq

theorem dictSet_mem_elim (d : List (String × String)) (k v : String)
    (q : String × String) (hq : q ∈ dictSet d k v) :
    (q.1 = k → q = (k, v)) ∧ (q.1 ≠ k → q ∈ d) := by
  by_cases h : d.any (fun p => p.1 == k)
  · rw [dictSet, if_pos h] at hq
    obtain ⟨p, hp, hfp⟩ := List.mem_map.mp hq
    by_cases hpk : (p.1 == k) = true
    · rw [if_pos hpk] at hfp
      constructor
      · intro _
        exact hfp.symm
      · intro hne
        exact absurd (by rw [← hfp]) hne
    · rw [if_neg hpk] at hfp
      have hpne : p.1 ≠ k := by
        intro hh
        exact hpk (beq_iff_eq.mpr hh)
      constructor
      · intro hqk
        exact absurd (hfp ▸ hqk) hpne
      · intro _
        rw [← hfp]
        exact hp
  · rw [dictSet, if_neg h] at hq
    rcases List.mem_append.mp hq with hq | hq
    · constructor
      · intro hqk
        exact absurd
          (List.any_eq_true.mpr ⟨q, hq, show (q.1 == k) = true from beq_iff_eq.mpr hqk⟩) h
      · intro _
        exact hq
    · have hq : q = (k, v) := List.mem_singleton.mp hq
      constructor
      · intro _
        exact hq
      · intro hne
        exact absurd (by rw [hq]) hne

/-- With absolute paths, a run prepares its command successfully, spawns the
external process exactly once and returns the engine result verbatim,
whatever the state of the test run directory. -/
theorem sdcccRunner_run_eq_of_absolute
    (st : RunnerState) (config requirements : PyPath)
    (kwargs : List (String × String)) (p : ProcSpec) (timeout : Option Nat)
    (hc : config.absolute = true) (hr : requirements.absolute = true) :
    sdcccRunner_run st config requirements kwargs p timeout
      = (liftRun (run_sdccc p timeout), 1) := by
  have hprep : prepare_execution_command st.testRunDir config requirements kwargs
      = Except.ok (renderArgs (finalKwargs st.testRunDir config requirements kwargs)) := by
    simp [prepare_execution_command, hc, hr]
  cases hrun : run_sdccc p timeout with
  | ok code => simp [sdcccRunner_run, hprep, hrun, liftRun]
  | error e => simp [sdcccRunner_run, hprep, hrun, liftRun]

/-! ## Claim C1: behaviour on timeout -/

/-- C1 counterexample: a run with timeout 1 whose child would need 10 time
units is still running when the timeout expires, yet the blocking
`_run_sdccc` returns the killed process exit code `-9` as a normal integer
result instead of raising `TimeoutError`, and the concurrent variant
likewise returns the integer instead of completing the cancellation. -/
theorem run_sdccc_timeout_silent_return_concrete :
    1 < (ProcSpec.mk 10 0 (-9)).runtime ∧
    run_sdccc (ProcSpec.mk 10 0 (-9)) (some 1) = Except.ok (-9) ∧
    run_sdccc (ProcSpec.mk 10 0 (-9)) (some 1) ≠ Except.error RunError.timeout ∧
    runAsyncEngine (ProcSpec.mk 10 0 (-9)) (some 1) = Except.ok (-9) := by
  decide

/-- C1 (amended): for every run with a finite timeout whose child process is
still running when the timeout expires, both the blocking and the concurrent
variant kill the child and return the killed process exit code as a normal
integer result; no timeout error reaches the caller. -/
theorem run_timeout_returns_killed_exit_code
    (p : ProcSpec) (t : Nat) (h : t < p.runtime) :
    run_sdccc p (some t) = Except.ok p.killedExitCode ∧
    runAsyncEngine p (some t) = Except.ok p.killedExitCode := by
  have hle : ¬ p.runtime ≤ t := by omega
  exact ⟨by simp [run_sdccc, hle], by simp [runAsyncEngine, hle]⟩

/-- C1 witness: the amended statement at a child that would need 5 time
units against a timeout of 2. -/
theorem run_timeout_returns_killed_exit_code_witness :
    run_sdccc (ProcSpec.mk 5 0 (-9)) (some 2) = Except.ok (-9) ∧
    runAsyncEngine (ProcSpec.mk 5 0 (-9)) (some 2) = Except.ok (-9) :=
  run_timeout_returns_killed_exit_code (ProcSpec.mk 5 0 (-9)) 2 (by decide)

/-! ## Claim C2: runs into a non empty test run directory -/

/-- C2 counterexample: a run whose test run directory is not empty does not
fail; with absolute config and requirements paths the external process is
spawned (spawn count 1) and its exit code is returned, because the source
`run` performs no emptiness check at all. -/
theorem run_nonempty_dir_still_spawns_concrete :
    (RunnerState.mk "/run" false).testRunDirEmpty = false ∧
    sdcccRunner_run (RunnerState.mk "/run" false) (PyPath.mk true "/c") (PyPath.mk true "/r")
        [] (ProcSpec.mk 3 0 (-9)) none = (Except.ok 0, 1) := by
  decide

/-- C2 (amended): `run` performs no emptiness check on the test run
directory; for every directory state, a run with absolute config and
requirements paths spawns the external process exactly once and returns the
engine result; only the path absoluteness checks happen before spawning. -/
theorem run_spawns_regardless_of_dir_contents
    (st : RunnerState) (config requirements : PyPath)
    (kwargs : List (String × String)) (p : ProcSpec) (timeout : Option Nat)
    (hc : config.absolute = true) (hr : requirements.absolute = true) :
    sdcccRunner_run st config requirements kwargs p timeout
      = (liftRun (run_sdccc p timeout), 1) :=
  sdcccRunner_run_eq_of_absolute st config requirements kwargs p timeout hc hr

/-- C2 witness: the amended statement at a run whose test run directory is
not empty. -/
theorem run_spawns_regardless_of_dir_contents_witness :
    sdcccRunner_run (RunnerState.mk "/run" false) (PyPath.mk true "/c") (PyPath.mk true "/r")
        [] (ProcSpec.mk 3 0 (-9)) none
      = (liftRun (run_sdccc (ProcSpec.mk 3 0 (-9)) none), 1) :=
  run_spawns_regardless_of_dir_contents (RunnerState.mk "/run" false)
    (PyPath.mk true "/c") (PyPath.mk true "/r") [] (ProcSpec.mk 3 0 (-9)) none rfl rfl

/-! ## Claim C3: enabled provided ids that exist in any state -/

/-- C3 counterexample: a provided catalog whose standard exists in the
available catalog and whose single enabled id exists among that standard's
available ids (in disabled state) is rejected by `check_requirements`,
because the code compares against the enabled available ids only. -/
theorem check_requirements_any_state_fails_concrete :
    (∀ p ∈ ([("A", [("r", true)])] : Catalog),
        p.1 ∈ keys [("A", [("r", false)])] ∧
        ∀ r ∈ enabledIds p.2,
          r ∈ ids ((([("A", [("r", false)])] : Catalog).lookup p.1).getD [])) ∧
    check_requirements [("A", [("r", true)])] [("A", [("r", false)])] ≠ Except.ok () := by
  decide

/-- C3 (amended): for every provided and available catalog such that every
standard named in provided exists in available and every requirement id
marked enabled in provided exists among that standard's available ids in
enabled state, `check_requirements` succeeds without error. -/
theorem check_requirements_ok_of_enabled_present
    (provided available : Catalog)
    (h : ∀ p ∈ provided, p.1 ∈ keys available ∧
        ∀ r ∈ enabledIds p.2,
          ∃ q ∈ (available.lookup p.1).getD [], q.1 = r ∧ q.2 = true) :
    check_requirements provided available = Except.ok () := by
  rw [check_requirements_ok_iff]
  intro p hp
  obtain ⟨hk, hr⟩ := h p hp
  refine ⟨hk, ?_⟩
  intro r hrr
  show r ∈ enabledIds ((available.lookup p.1).getD [])
  rw [mem_enabledIds_iff]
  exact hr r hrr

/-- C3 witness: the amended statement at a two entry provided map with one
enabled and one disabled id. -/
theorem check_requirements_ok_of_enabled_present_witness :
    check_requirements [("BICEPS", [("R0021", true), ("R0100", false)])]
        [("BICEPS", [("R0021", true), ("R0033", true)])] = Except.ok () :=
  check_requirements_ok_of_enabled_present
    [("BICEPS", [("R0021", true), ("R0100", false)])]
    [("BICEPS", [("R0021", true), ("R0033", true)])] (by decide)

/-! ## Claim C5: enabled ids that exist and are enabled -/

/-- C5 counterexample: a provided catalog with a standard unknown to the
available catalog and no enabled id at all satisfies "every enabled
requirement id exists and is enabled in available" vacuously, yet
`check_requirements` fails on the unknown standard. -/
theorem check_requirements_vacuous_enabled_fails_concrete :
    (∀ p ∈ ([("A", [("x", false)])] : Catalog),
        ∀ r ∈ enabledIds p.2, r ∈ availEnabled ([] : Catalog) p.1) ∧
    check_requirements [("A", [("x", false)])] [] ≠ Except.ok () := by
  decide

/-- C5 (amended): for all pairs of provided and available catalogs where
every standard of provided exists in available and every enabled
requirement id in every standard of provided exists and is enabled in
available, `check_requirements` succeeds without error. -/
theorem check_requirements_ok_of_standards_and_enabled
    (provided available : Catalog)
    (hstd : ∀ p ∈ provided, p.1 ∈ keys available)
    (hen : ∀ p ∈ provided, ∀ r ∈ enabledIds p.2, r ∈ availEnabled available p.1) :
    check_requirements provided available = Except.ok () := by
  rw [check_requirements_ok_iff]
  exact fun p hp => ⟨hstd p hp, hen p hp⟩

/-- C5 witness: the amended statement at a one standard catalog pair. -/
theorem check_requirements_ok_of_standards_and_enabled_witness :
    check_requirements [("MDPWS", [("R0008", true)])]
        [("MDPWS", [("R0008", true), ("R0006", false)])] = Except.ok () :=
  check_requirements_ok_of_standards_and_enabled
    [("MDPWS", [("R0008", true)])]
    [("MDPWS", [("R0008", true), ("R0006", false)])] (by decide) (by decide)

/-! ## Claim C6: failing enabled id and the disabled toggle -/

/-- C6 counterexample: the provided catalog contains the enabled id "x"
absent from the available map of its standard, so `check_requirements`
fails; but toggling that single id to disabled does not make the same input
succeed, because a second enabled id "y" is also unavailable. -/
theorem toggle_single_id_not_sufficient_concrete :
    ("x", true) ∈ ([("x", true), ("y", true)] : Requirements) ∧
    (∀ q ∈ ((([("A", ([] : Requirements))] : Catalog).lookup "A").getD []), q.1 ≠ "x") ∧
    check_requirements [("A", [("x", true), ("y", true)])] [("A", [])] ≠ Except.ok () ∧
    check_requirements [("A", [("x", false), ("y", true)])] [("A", [])] ≠ Except.ok () := by
  decide

/-- C6 (amended): if a provided catalog contains an enabled requirement id
absent from the available map of its standard, `check_requirements` fails;
and if that id is the only violation (after toggling it to disabled the
catalog is valid), the toggled input succeeds — disabled ids are never
checked against availability. -/
theorem check_requirements_enabled_absent_fails_toggle_ok
    (available pre post : Catalog) (s r : String)
    (rpre rpost : Requirements) (avail : Requirements)
    (hlk : available.lookup s = some avail)
    (habs : ∀ q ∈ avail, q.1 ≠ r) :
    check_requirements (pre ++ (s, rpre ++ (r, true) :: rpost) :: post) available
      ≠ Except.ok () ∧
    (catalogValid (pre ++ (s, rpre ++ (r, false) :: rpost) :: post) available →
      check_requirements (pre ++ (s, rpre ++ (r, false) :: rpost) :: post) available
        = Except.ok ()) := by
  constructor
  · intro h
    have hv := (check_requirements_ok_iff _ _).mp h
    have hmem : ((s, rpre ++ (r, true) :: rpost) : String × Requirements)
        ∈ pre ++ (s, rpre ++ (r, true) :: rpost) :: post :=
      List.mem_append_right _ (List.mem_cons_self _ _)
    obtain ⟨hk, hall⟩ := hv _ hmem
    have hr0 : r ∈ enabledIds (rpre ++ (r, true) :: rpost) := by
      rw [mem_enabledIds_iff]
      exact ⟨(r, true), List.mem_append_right _ (List.mem_cons_self _ _), rfl, rfl⟩
    have hr1 := hall r hr0
    have hr2 : r ∈ enabledIds avail := by
      have hae : availEnabled available s = enabledIds avail := by
        simp [availEnabled, hlk]
      rwa [hae] at hr1
    rw [mem_enabledIds_iff] at hr2
    obtain ⟨q, hq, hq1, _⟩ := hr2
    exact habs q hq hq1
  · intro hv
    exact (check_requirements_ok_iff _ _).mpr hv

/-- C6 witness: the amended statement where "x" is the only violation, so
the toggled input succeeds. -/
theorem check_requirements_enabled_absent_fails_toggle_ok_witness :
    check_requirements [("A", [("x", true), ("z", true)])] [("A", [("z", true)])]
      ≠ Except.ok () ∧
    check_requirements [("A", [("x", false), ("z", true)])] [("A", [("z", true)])]
      = Except.ok () := by
  have h := check_requirements_enabled_absent_fails_toggle_ok
    [("A", [("z", true)])] [] [] "A" "x" [] [("z", true)] [("z", true)]
    (by decide) (by decide)
  exact ⟨h.1, h.2 (by decide)⟩

/-! ## Claim C4: shape of the run result and missing report files -/

/-- C4 counterexample: for a completed run, the value `run` returns is the
same whether the direct report file exists or not — it is only the exit code
with spawn count 1 — so `run` does not return the claimed triple containing
the parsed direct suite. -/
theorem run_result_independent_of_report_files_concrete :
    sdcccRunner_run_full (RunnerState.mk "/run" true) (PyPath.mk true "/c")
        (PyPath.mk true "/r") [] (ProcSpec.mk 3 0 (-9)) none
        (FileState.wellFormed (TestSuite.mk [TestCase.mk "MDPWS.R5039" "d"])) FileState.missing
      = sdcccRunner_run_full (RunnerState.mk "/run" true) (PyPath.mk true "/c")
          (PyPath.mk true "/r") [] (ProcSpec.mk 3 0 (-9)) none
          FileState.missing FileState.missing ∧
    sdcccRunner_run_full (RunnerState.mk "/run" true) (PyPath.mk true "/c")
        (PyPath.mk true "/r") [] (ProcSpec.mk 3 0 (-9)) none
        (FileState.wellFormed (TestSuite.mk [TestCase.mk "MDPWS.R5039" "d"])) FileState.missing
      = (Except.ok 0, 1) := by
  exact ⟨rfl, by decide⟩

/-- C4 (amended): for every completed (non timeout) run, `run` returns only
the exit code (spawning once); the suite pair comes from the separate
`parse_results`, where a missing report file yields `none` rather than an
error; in particular a directory holding only the direct report file parses
to the pair of the direct suite and `none`. -/
theorem run_exit_code_and_separate_parse
    (st : RunnerState) (config requirements : PyPath)
    (kwargs : List (String × String)) (p : ProcSpec) (timeout : Option Nat)
    (df invf : FileState) (suite : TestSuite)
    (hc : config.absolute = true) (hr : requirements.absolute = true) :
    sdcccRunner_run_full st config requirements kwargs p timeout df invf
      = (liftRun (run_sdccc p timeout), 1) ∧
    parse_results (FileState.wellFormed suite) FileState.missing
      = Except.ok (some suite, none) :=
  ⟨sdcccRunner_run_eq_of_absolute st config requirements kwargs p timeout hc hr, rfl⟩

/-- C4 witness: the amended statement at a concrete run whose directory
holds only the direct report file. -/
theorem run_exit_code_and_separate_parse_witness :
    sdcccRunner_run_full (RunnerState.mk "/run" true) (PyPath.mk true "/c")
        (PyPath.mk true "/r") [] (ProcSpec.mk 3 7 (-9)) none
        (FileState.wellFormed (TestSuite.mk [TestCase.mk "BICEPS.R6039" "d"])) FileState.missing
      = (liftRun (run_sdccc (ProcSpec.mk 3 7 (-9)) none), 1) ∧
    parse_results (FileState.wellFormed (TestSuite.mk [TestCase.mk "BICEPS.R6039" "d"]))
        FileState.missing
      = Except.ok (some (TestSuite.mk [TestCase.mk "BICEPS.R6039" "d"]), none) :=
  run_exit_code_and_separate_parse (RunnerState.mk "/run" true) (PyPath.mk true "/c")
    (PyPath.mk true "/r") [] (ProcSpec.mk 3 7 (-9)) none
    (FileState.wellFormed (TestSuite.mk [TestCase.mk "BICEPS.R6039" "d"])) FileState.missing
    (TestSuite.mk [TestCase.mk "BICEPS.R6039" "d"]) rfl rfl

/-! ## Claim C7: whitespace preservation in built commands -/

/-- C7: building a command with the flag map of a true
`no_subdirectories` and a `config` path containing a space preserves the
path `/a b/c.toml` exactly, both in `build_command` of _common.py (where it
appears quoted) and in the command prepared by
`_prepare_execution_command` of _runner.py (where it appears verbatim). -/
theorem build_command_preserves_path_with_spaces :
    build_command []
        [("no_subdirectories", PyValue.bool true), ("config", PyValue.str "/a b/c.toml")]
      = "--no_subdirectories --config \"" ++ "/a b/c.toml" ++ "\"" ∧
    prepare_execution_command "/run" (PyPath.mk true "/a b/c.toml")
        (PyPath.mk true "/req.toml") []
      = Except.ok ("--no_subdirectories true --test_run_directory /run --config "
          ++ "/a b/c.toml" ++ " --testconfig /req.toml") := by
  exact ⟨rfl, rfl⟩

/-! ## Claim C8: contributions of boolean flags -/

/-- C8: for every flag map, `build_command` is the space join of the
positional arguments, the block of tokens contributed flag by flag through
`boolFlagToken` (a boolean-true flag contributes exactly the token
`--name` and no value token, a boolean-false flag contributes nothing) and
the block contributed through `valuedFlagChunk`; consequently removing all
boolean-false flags leaves the command unchanged. -/
theorem build_command_flag_contributions
    (args : List String) (kwargs : List (String × PyValue)) :
    build_command args kwargs
      = joinSpace ((args ++
          [joinSpace (kwargs.filterMap boolFlagToken),
           joinSpace (kwargs.filterMap valuedFlagChunk)]).filter (fun part => part != "")) ∧
    build_command args (kwargs.filter (fun p => p.2 != PyValue.bool false))
      = build_command args kwargs := by
  constructor
  · simp only [build_command, filter_true_map_eq_filterMap, filter_str_map_eq_filterMap]
  · simp only [build_command, filter_drop_false_true, filter_drop_false_str]

/-! ## Claim C9: engine injected flags win over caller flags -/

/-- C9: for every caller supplied extra flag map and absolute config and
requirements paths, the prepared command renders the final kwargs dict,
which binds the four engine injected flags to the engine values; any caller
binding of one of those four names is deterministically overridden (every
entry of the final dict carrying one of the four names carries the engine
value). -/
theorem prepare_execution_command_engine_flags_win
    (test_run_dir : String) (config requirements : PyPath)
    (kwargs : List (String × String))
    (hc : config.absolute = true) (hr : requirements.absolute = true) :
    prepare_execution_command test_run_dir config requirements kwargs
      = Except.ok (renderArgs (finalKwargs test_run_dir config requirements kwargs)) ∧
    ("no_subdirectories", "true") ∈ finalKwargs test_run_dir config requirements kwargs ∧
    ("test_run_directory", test_run_dir) ∈ finalKwargs test_run_dir config requirements kwargs ∧
    ("config", config.toStr) ∈ finalKwargs test_run_dir config requirements kwargs ∧
    ("testconfig", requirements.toStr) ∈ finalKwargs test_run_dir config requirements kwargs ∧
    ∀ q ∈ finalKwargs test_run_dir config requirements kwargs,
      (q.1 = "no_subdirectories" → q.2 = "true") ∧
      (q.1 = "test_run_directory" → q.2 = test_run_dir) ∧
      (q.1 = "config" → q.2 = config.toStr) ∧
      (q.1 = "testconfig" → q.2 = requirements.toStr) := by
  have hprep : prepare_execution_command test_run_dir config requirements kwargs
      = Except.ok (renderArgs (finalKwargs test_run_dir config requirements kwargs)) := by
    simp [prepare_execution_command, hc, hr]
  refine ⟨hprep, ?_, ?_, ?_, ?_, ?_⟩
  · exact dictSet_mem_of_ne _ _ _ _
      (dictSet_mem_of_ne _ _ _ _
        (dictSet_mem_of_ne _ _ _ _ (dictSet_mem_self _ _ _)
          (show ("no_subdirectories" : String) ≠ "test_run_directory" by decide))
        (show ("no_subdirectories" : String) ≠ "config" by decide))
      (show ("no_subdirectories" : String) ≠ "testconfig" by decide)
  · exact dictSet_mem_of_ne _ _ _ _
      (dictSet_mem_of_ne _ _ _ _ (dictSet_mem_self _ _ _)
        (show ("test_run_directory" : String) ≠ "config" by decide))
      (show ("test_run_directory" : String) ≠ "testconfig" by decide)
  · exact dictSet_mem_of_ne _ _ _ _ (dictSet_mem_self _ _ _)
      (show ("config" : String) ≠ "testconfig" by decide)
  · exact dictSet_mem_self _ _ _
  · intro q hq
    have e4 := dictSet_mem_elim _ "testconfig" requirements.toStr q hq
    refine ⟨?_, ?_, ?_, ?_⟩
    · intro h1
      have hne4 : q.1 ≠ "testconfig" := by rw [h1]; decide
      have hq3 := e4.2 hne4
      have e3 := dictSet_mem_elim _ "config" config.toStr q hq3
      have hne3 : q.1 ≠ "config" := by rw [h1]; decide
      have hq2 := e3.2 hne3
      have e2 := dictSet_mem_elim _ "test_run_directory" test_run_dir q hq2
      have hne2 : q.1 ≠ "test_run_directory" := by rw [h1]; decide
      have hq1 := e2.2 hne2
      have e1 := dictSet_mem_elim _ "no_subdirectories" "true" q hq1
      have := e1.1 h1
      rw [this]
    · intro h1
      have hne4 : q.1 ≠ "testconfig" := by rw [h1]; decide
      have hq3 := e4.2 hne4
      have e3 := dictSet_mem_elim _ "config" config.toStr q hq3
      have hne3 : q.1 ≠ "config" := by rw [h1]; decide
      have hq2 := e3.2 hne3
      have e2 := dictSet_mem_elim _ "test_run_directory" test_run_dir q hq2
      have := e2.1 h1
      rw [this]
    · intro h1
      have hne4 : q.1 ≠ "testconfig" := by rw [h1]; decide
      have hq3 := e4.2 hne4
      have e3 := dictSet_mem_elim _ "config" config.toStr q hq3
      have := e3.1 h1
      rw [this]
    · intro h1
      have := e4.1 h1
      rw [this]

/-- C9 witness: the engine values survive a caller attempt to override the
`config` flag. -/
theorem prepare_execution_command_engine_flags_win_witness :
    prepare_execution_command "/run" (PyPath.mk true "/c.toml") (PyPath.mk true "/r.toml")
        [("config", "/evil")]
      = Except.ok (renderArgs (finalKwargs "/run" (PyPath.mk true "/c.toml")
          (PyPath.mk true "/r.toml") [("config", "/evil")])) ∧
    ("config", "/c.toml") ∈ finalKwargs "/run" (PyPath.mk true "/c.toml")
        (PyPath.mk true "/r.toml") [("config", "/evil")] := by
  have h := prepare_execution_command_engine_flags_win "/run" (PyPath.mk true "/c.toml")
    (PyPath.mk true "/r.toml") [("config", "/evil")] rfl rfl
  exact ⟨h.1, h.2.2.2.1⟩

/-! ## Claim C10: empty provided catalog -/

/-- C10: for every available catalog, `check_requirements` called with an
empty provided catalog returns successfully, whatever the available
catalog contains. -/
theorem check_requirements_empty_provided_ok (available : Catalog) :
    check_requirements [] available = Except.ok () := rfl

end Pysdccc
